import Mathlib

/-!
Shallow embedding of the cfsm compile-time finite-state-machine library
(src/cfsm.hpp). State classes are concrete leaf types named by their static
type identifier (a `Nat`); a live state object is a `Handle` carrying its
dynamic type and its address. A `state_machine` holds at most one current
handle (`p_current_state`). User callbacks (entry hooks, exit hooks,
registered transition actions) and object releases are recorded in an
`Event` trace, in the order the C++ code invokes them.
-/

namespace cfsm

/-- A live state object: `ty` is its dynamic type (the state class, named by
that class's type identifier) and `addr` its address. -/
structure Handle where
  ty : Nat
  addr : Nat
  deriving DecidableEq, Repr

/-- The three state-object allocation schemes (`enum class alloc_type`). -/
inductive AllocType where
  | LAZY
  | PREALLOCED
  | INTERNAL
  deriving DecidableEq, Repr

/-- One `state_machine` template instantiation: the allocation scheme
(template parameter `type`), the number of declared state classes
(`sizeof...(states)`), the caller-supplied external array (`state_pool`,
holding a possibly-null base-class pointer per slot), the engine-owned
internal pool (one object per slot, non-null once `get_pool` has
constructed the pool), and each state class's static `type_id`. -/
structure Config where
  type : AllocType
  numStates : Nat
  state_pool : Nat → Option Handle
  internalPool : Nat → Handle
  typeId : Nat → Nat

/-- Mutable machine state: `p_current_state`, plus a fresh-address counter
modelling the heap from which `new` draws objects in the LAZY scheme. -/
structure Machine where
  current : Option Handle
  nextAddr : Nat
  deriving DecidableEq, Repr

/-- One observable step: an `on_enter` or `on_exit` hook of the state class
named, a registered transition functor call, or a `delete` of an object.
Each callback carries the opaque `dataptr` it was passed (a `Nat`). -/
inductive Event where
  | enter (s : Nat) (d : Nat)
  | exit (s : Nat) (d : Nat)
  | action (f : Nat) (t : Nat) (d : Nat)
  | release (h : Handle)
  deriving DecidableEq, Repr

/-- The two `std::runtime_error` throw sites: "State pointer is null" and
"Failed to allocate new state". -/
inductive Err where
  | nullState
  | allocFailed
  deriving DecidableEq, Repr

/-- `dynamic_cast<target*>(p)` for the concrete leaf state classes this
library is used with: succeeds exactly when the object's dynamic type is
`target`, and a null pointer casts to null. -/
def dynCast (target : Nat) (p : Option Handle) : Option Handle :=
  match p with
  | none => none
  | some h => if h.ty = target then some h else none

/-- `state_machine::allocate_state<new_state>()`, one overload per scheme:
PREALLOCED indexes the external array
(`type_id < size ? pool[type_id] : nullptr`), INTERNAL indexes the
engine-owned pool under the same bound check, and LAZY runs
`new new_state()`, producing a fresh non-null object of the requested
class. -/
def allocate_state (cfg : Config) (m : Machine) (s : Nat) :
    Option Handle × Machine :=
  match cfg.type with
  | AllocType.PREALLOCED =>
      (if cfg.typeId s < cfg.numStates then cfg.state_pool (cfg.typeId s)
       else none, m)
  | AllocType.INTERNAL =>
      (if cfg.typeId s < cfg.numStates then some (cfg.internalPool (cfg.typeId s))
       else none, m)
  | AllocType.LAZY =>
      (some { ty := s, addr := m.nextAddr }, { m with nextAddr := m.nextAddr + 1 })

/-- `state_machine::delete_current_state()`: under the LAZY scheme `delete`s
the current object (a no-op on a null pointer), then nulls
`p_current_state`. -/
def delete_current_state (cfg : Config) (m : Machine) : Machine × List Event :=
  ({ m with current := none },
    match cfg.type, m.current with
    | AllocType.LAZY, some c => [Event.release c]
    | _, _ => [])

/-- `state_machine::start<initial_state>(dataptr)`: assigns the allocator's
result to `p_current_state`, throws "State pointer is null" when that result
is null, and otherwise runs the new object's virtual `on_enter`. A `some e`
first component models a throw escaping the call. -/
def start (cfg : Config) (s : Nat) (m : Machine) (d : Nat) :
    Option Err × Machine × List Event :=
  let ar := allocate_state cfg m s
  let m1 : Machine := { ar.snd with current := ar.fst }
  match ar.fst with
  | none => (some Err.nullState, m1, [])
  | some h => (none, m1, [Event.enter h.ty d])

/-- `state_machine::transition<from_state, to_state>(dataptr)`: the body of
the member template as instantiated for a registered edge (the `enable_if`
over `transition<from_state, to_state>::exists` admits only registered
edges, and the `static_assert`s only declared states). Steps in source
order: the `dynamic_cast` current-type test (returning false on mismatch),
the explicit null-current test (throwing "State pointer is null"), target
allocation (throwing "Failed to allocate new state" on null), the old
object's virtual `on_exit`, `delete` of the old object under LAZY, the
registered transition functor, installation of the new object as current,
and its virtual `on_enter`. `c` below is the same object as
`p_current_state`, as returned by the successful `dynamic_cast`. -/
def transition (cfg : Config) (fromS toS : Nat) (m : Machine) (d : Nat) :
    Except Err Bool × Machine × List Event :=
  match dynCast fromS m.current with
  | none => (Except.ok false, m, [])
  | some c =>
    if m.current.isNone then (Except.error Err.nullState, m, [])
    else
      let ar := allocate_state cfg m toS
      match ar.fst with
      | none => (Except.error Err.allocFailed, ar.snd, [])
      | some hNew =>
          (Except.ok true, { ar.snd with current := some hNew },
            Event.exit c.ty d ::
              ((match cfg.type with
                | AllocType.LAZY => [Event.release c]
                | _ => []) ++
                (Event.action fromS toS d :: [Event.enter hNew.ty d])))

/-- `state_machine::stop(dataptr)`: returns immediately when there is no
current state; otherwise runs the current object's virtual `on_exit`, frees
it via `delete_current_state`, and tears down the engine-owned pool
(`delete_pool`, a destructor-only teardown that runs no hooks and is a
no-op outside the INTERNAL scheme, so it contributes no trace event any
claim observes). -/
def stop (cfg : Config) (m : Machine) (d : Nat) : Machine × List Event :=
  match m.current with
  | none => (m, [])
  | some c =>
      let dc := delete_current_state cfg m
      (dc.fst, Event.exit c.ty d :: dc.snd)

/-- `state_machine::state<state_type>()`: the current object dynamic-cast to
the requested state class; null when the types differ or nothing is
current. -/
def state (target : Nat) (m : Machine) : Option Handle :=
  dynCast target m.current

/-- `sizeof(p_current_state)`: the width of one base-class pointer (LP64). -/
def ptrSize : Nat := 8

/-- A caller-supplied byte buffer for `save`/`load`: whether `pdata` is the
null pointer, `datalen`, and the pointer value occupying the buffer's first
`ptrSize` bytes. -/
structure Buffer where
  null : Bool
  len : Nat
  stored : Option Handle
  deriving DecidableEq, Repr

/-- `state_machine::save(pdata, datalen)`: returns 0 leaving everything
untouched on a null or undersized buffer; otherwise writes
`p_current_state` into the buffer, nulls the machine's own reference (so a
later destructor frees nothing), and returns `sizeof(p_current_state)`. No
hook runs; nothing throws. -/
def save (m : Machine) (b : Buffer) : Nat × Machine × Buffer × List Event :=
  if b.null then (0, m, b, [])
  else if b.len < ptrSize then (0, m, b, [])
  else (ptrSize, { m with current := none }, { b with stored := m.current }, [])

/-- `state_machine::load(pdata, datalen)`: returns 0 leaving everything
untouched on a null or undersized buffer; otherwise installs the pointer
read from the buffer as `p_current_state` and returns
`sizeof(p_current_state)`. No hook runs; nothing throws. -/
def load (m : Machine) (b : Buffer) : Nat × Machine × List Event :=
  if b.null then (0, m, [])
  else if b.len < ptrSize then (0, m, [])
  else (ptrSize, { m with current := b.stored }, [])

/-- `state_machine::~state_machine()`: returns immediately when nothing is
current, otherwise frees the current object via `delete_current_state` (and
tears down the engine-owned pool); no hook runs. The result is the trace of
releases. -/
def destruct (cfg : Config) (m : Machine) : List Event :=
  match m.current with
  | none => []
  | some _ => (delete_current_state cfg m).snd

/-- Whether an event is a user callback (an entry hook, an exit hook, or a
registered transition action), as opposed to a memory release. -/
def isHook : Event → Bool
  | Event.enter _ _ => true
  | Event.exit _ _ => true
  | Event.action _ _ _ => true
  | Event.release _ => false

/-- The user-callback subsequence of a trace. -/
def hooks (es : List Event) : List Event := es.filter isHook

/-- Save `m` into `b`, then load from the written buffer on a fresh machine
(no current state, arbitrary heap cursor `k`) of the same configuration. -/
def reloaded (m : Machine) (b : Buffer) (k : Nat) : Machine :=
  (load { current := none, nextAddr := k } (save m b).snd.snd.fst).snd.fst

/-- A sample live state object of the class with type identifier 0. -/
def h0 : Handle := { ty := 0, addr := 100 }

/-- Two declared states (type identifiers 0 and 1), `type_id` the identity;
an external array with a live slot 0 and a null slot 1. -/
def cfgPre : Config :=
  { type := AllocType.PREALLOCED, numStates := 2,
    state_pool := fun i => if i = 0 then some h0 else none,
    internalPool := fun _ => h0, typeId := fun s => s }

/-- The same two declared states under the LAZY scheme. -/
def cfgLazy : Config :=
  { type := AllocType.LAZY, numStates := 2,
    state_pool := fun _ => none,
    internalPool := fun _ => h0, typeId := fun s => s }

/-- A machine currently in state 0, holding `h0`. -/
def mPre : Machine := { current := some h0, nextAddr := 0 }

/-- A machine with no current state. -/
def mNone : Machine := { current := none, nextAddr := 0 }

/-- A non-null 16-byte buffer holding a null pointer. -/
def bufOk : Buffer := { null := false, len := 16, stored := none }

/-- A non-null 4-byte buffer: smaller than one pointer. -/
def bufSmall : Buffer := { null := false, len := 4, stored := none }

/-- C1: for a registered edge (From,To), `transition<From,To>(data)` from an
actual current state of type From runs `on_exit(From)`, then the registered
action, then `on_enter(To)`, in that order and each with the same data
handle, returns true, and `state<To>()` afterwards reports the current
state as To. (Hypotheses: the current object is of type From, and the
allocator yields an object of class To, as every correctly configured
allocator does and LAZY does unconditionally.) -/
theorem transition_registered_edge_order
    (cfg : Config) (fromS toS : Nat) (m : Machine) (d : Nat) (c hNew : Handle)
    (hcur : m.current = some c) (hty : c.ty = fromS)
    (halloc : (allocate_state cfg m toS).fst = some hNew) (hto : hNew.ty = toS) :
    (transition cfg fromS toS m d).fst = Except.ok true ∧
    hooks (transition cfg fromS toS m d).snd.snd =
      [Event.exit fromS d, Event.action fromS toS d, Event.enter toS d] ∧
    state toS (transition cfg fromS toS m d).snd.fst = some hNew := by
  cases htype : cfg.type with
  | LAZY =>
      simp [transition, hcur, halloc, htype, hooks, isHook, hty, hto,
        state, dynCast]
  | PREALLOCED =>
      simp [transition, hcur, halloc, htype, hooks, isHook, hty, hto,
        state, dynCast]
  | INTERNAL =>
      simp [transition, hcur, halloc, htype, hooks, isHook, hty, hto,
        state, dynCast]

/-- C1 witness: under the LAZY scheme, from state 0 holding `h0`, the edge
(0,1) runs exit 0, action (0,1), enter 1 and installs the fresh object. -/
theorem transition_registered_edge_order_witness :
    (transition cfgLazy 0 1 mPre 9).fst = Except.ok true ∧
    hooks (transition cfgLazy 0 1 mPre 9).snd.snd =
      [Event.exit 0 9, Event.action 0 1 9, Event.enter 1 9] ∧
    state 1 (transition cfgLazy 0 1 mPre 9).snd.fst =
      some { ty := 1, addr := 0 } :=
  transition_registered_edge_order cfgLazy 0 1 mPre 9 h0
    { ty := 1, addr := 0 } rfl rfl rfl rfl

/-- C2: `transition<From,To>` called while the actual current state type
differs from From returns false, leaves the machine (hence all
introspection) unchanged, and runs no hook and no action. -/
theorem transition_type_mismatch_noop
    (cfg : Config) (fromS toS : Nat) (m : Machine) (d : Nat) (c : Handle)
    (hcur : m.current = some c) (hty : c.ty ≠ fromS) :
    transition cfg fromS toS m d = (Except.ok false, m, []) := by
  have hdc : dynCast fromS m.current = none := by
    simp [dynCast, hcur, hty]
  simp [transition, hdc]

/-- C2 witness: from state 0 (holding `h0`), the edge (1,0) is refused with
no side effect. -/
theorem transition_type_mismatch_noop_witness :
    transition cfgLazy 1 0 mPre 4 = (Except.ok false, mPre, []) :=
  transition_type_mismatch_noop cfgLazy 1 0 mPre 4 h0 rfl (by decide)

/-- C3 counterexample: a concrete `transition` call in which the allocation
of the To handle fails, and the trace is empty — the From exit hook has not
run, because in the source the target allocation happens before the exit
hook, not after it. -/
theorem transition_alloc_precedes_exit_cex :
    transition cfgPre 0 1 mPre 5 = (Except.error Err.allocFailed, mPre, []) :=
  rfl

/-- C3 amended: in `transition`, allocation of the To handle precedes the
From exit hook; whenever that allocation fails the call raises with an
empty event trace and an unchanged machine, so an exit-without-matching-
entry can never result from target-allocation failure. -/
theorem transition_alloc_failure_no_exit
    (cfg : Config) (fromS toS : Nat) (m : Machine) (d : Nat)
    (hfail : (transition cfg fromS toS m d).fst = Except.error Err.allocFailed) :
    (transition cfg fromS toS m d).snd.snd = [] ∧
    (transition cfg fromS toS m d).snd.fst = m := by
  rcases hdc : dynCast fromS m.current with _ | c
  · simp [transition, hdc] at hfail
  · have hnn : m.current.isNone = false := by
      cases hm : m.current
      · simp [dynCast, hm] at hdc
      · simp [hm]
    rcases har : (allocate_state cfg m toS).fst with _ | hNew
    · have hm : (allocate_state cfg m toS).snd = m := by
        cases htype : cfg.type
        · simp [allocate_state, htype] at har
        · simp [allocate_state, htype]
        · simp [allocate_state, htype]
      simp [transition, hdc, hnn, har, hm]
    · simp [transition, hdc, hnn, har] at hfail

/-- C3 amended witness: at the concrete failing allocation above, no event
was produced and the machine is unchanged. -/
theorem transition_alloc_failure_no_exit_witness :
    (transition cfgPre 0 1 mPre 5).snd.snd = [] ∧
    (transition cfgPre 0 1 mPre 5).snd.fst = mPre :=
  transition_alloc_failure_no_exit cfgPre 0 1 mPre 5 (by rfl)

/-- C4: a null result from the active allocator makes `start` throw, and
makes `transition` (once the current type matched From) throw; a
current-type mismatch never throws — it returns false. -/
theorem alloc_failure_raises :
    (∀ cfg s m d, (allocate_state cfg m s).fst = none →
        (start cfg s m d).fst = some Err.nullState) ∧
    (∀ cfg fromS toS m d c, Machine.current m = some c → c.ty = fromS →
        (allocate_state cfg m toS).fst = none →
        (transition cfg fromS toS m d).fst = Except.error Err.allocFailed) ∧
    (∀ cfg fromS toS m d c, Machine.current m = some c → c.ty ≠ fromS →
        (transition cfg fromS toS m d).fst = Except.ok false) := by
  refine ⟨?_, ?_, ?_⟩
  · intro cfg s m d h
    simp [start, h]
  · intro cfg fromS toS m d c hcur hty h
    have hdc : dynCast fromS m.current = some c := by
      simp [dynCast, hcur, hty]
    have hnn : m.current.isNone = false := by simp [hcur]
    simp [transition, hdc, hnn, h]
  · intro cfg fromS toS m d c hcur hty
    have hdc : dynCast fromS m.current = none := by
      simp [dynCast, hcur, hty]
    simp [transition, hdc]

/-- C4 witness: with the external array's slot 1 null, `start` into state 1
throws, `transition` from matching state 0 to state 1 throws, and a
mismatched `transition` merely returns false. -/
theorem alloc_failure_raises_witness :
    (start cfgPre 1 mNone 7).fst = some Err.nullState ∧
    (transition cfgPre 0 1 mPre 7).fst = Except.error Err.allocFailed ∧
    (transition cfgPre 1 0 mPre 7).fst = Except.ok false :=
  ⟨alloc_failure_raises.1 cfgPre 1 mNone 7 (by rfl),
   alloc_failure_raises.2.1 cfgPre 0 1 mPre 7 h0 rfl rfl (by rfl),
   alloc_failure_raises.2.2 cfgPre 1 0 mPre 7 h0 rfl (by decide)⟩

/-- C10: `transition` on a machine holding no current handle returns false
with nothing changed and nothing thrown; and the explicit null-current
throw branch inside `transition` is unreachable, because the
`dynamic_cast` mismatch test already returns false on a null current
pointer. -/
theorem transition_null_current_false :
    (∀ cfg fromS toS m d, Machine.current m = none →
        transition cfg fromS toS m d = (Except.ok false, m, [])) ∧
    (∀ cfg fromS toS m d,
        (transition cfg fromS toS m d).fst ≠ Except.error Err.nullState) := by
  constructor
  · intro cfg fromS toS m d hcur
    simp [transition, dynCast, hcur]
  · intro cfg fromS toS m d
    rcases hdc : dynCast fromS m.current with _ | c
    · simp [transition, hdc]
    · have hnn : m.current.isNone = false := by
        cases hm : m.current
        · simp [dynCast, hm] at hdc
        · simp [hm]
      rcases har : (allocate_state cfg m toS).fst with _ | hNew
      · simp [transition, hdc, hnn, har]
      · simp [transition, hdc, hnn, har]

/-- C10 witness: on a machine with no current state, the registered edge
(0,1) is refused with no side effect, and concretely nothing throws. -/
theorem transition_null_current_false_witness :
    transition cfgLazy 0 1 mNone 3 = (Except.ok false, mNone, []) :=
  transition_null_current_false.1 cfgLazy 0 1 mNone 3 rfl

/-- The result, the event trace, and the type of the resulting current state
of `transition` do not depend on the heap cursor: only the address of a
LAZY-allocated object does. -/
theorem transition_heap_indep (cfg : Config) (f t : Nat) (cur : Option Handle)
    (n n2 d : Nat) :
    (transition cfg f t { current := cur, nextAddr := n } d).fst
      = (transition cfg f t { current := cur, nextAddr := n2 } d).fst ∧
    (transition cfg f t { current := cur, nextAddr := n } d).snd.snd
      = (transition cfg f t { current := cur, nextAddr := n2 } d).snd.snd ∧
    Option.map Handle.ty
        ((transition cfg f t { current := cur, nextAddr := n } d).snd.fst).current
      = Option.map Handle.ty
        ((transition cfg f t { current := cur, nextAddr := n2 } d).snd.fst).current := by
  rcases cur with _ | c
  · simp [transition, dynCast]
  · by_cases hty : c.ty = f
    · cases htype : cfg.type with
      | LAZY => simp [transition, dynCast, hty, allocate_state, htype]
      | PREALLOCED =>
          by_cases hb : cfg.typeId t < cfg.numStates
          · rcases hp : cfg.state_pool (cfg.typeId t) with _ | hN
            · simp [transition, dynCast, hty, allocate_state, htype, hb, hp]
            · simp [transition, dynCast, hty, allocate_state, htype, hb, hp]
          · simp [transition, dynCast, hty, allocate_state, htype, hb]
      | INTERNAL =>
          by_cases hb : cfg.typeId t < cfg.numStates
          · simp [transition, dynCast, hty, allocate_state, htype, hb]
          · simp [transition, dynCast, hty, allocate_state, htype, hb]
    · simp [transition, dynCast, hty]

/-- C5: saving a started machine into a buffer of at least one pointer's
width and loading from that buffer on a fresh machine of the same
configuration yields a machine whose introspection agrees with the pre-save
machine on every queried type, and whose transitions produce the same
result, the same event trace, and a resulting current state of the same
type as the pre-save machine's. -/
theorem save_load_roundtrip
    (cfg : Config) (m : Machine) (b : Buffer) (c : Handle) (k tq f t d : Nat)
    (hcur : m.current = some c) (hnull : b.null = false)
    (hlen : ptrSize ≤ b.len) :
    state tq (reloaded m b k) = state tq m ∧
    (transition cfg f t (reloaded m b k) d).fst
      = (transition cfg f t m d).fst ∧
    (transition cfg f t (reloaded m b k) d).snd.snd
      = (transition cfg f t m d).snd.snd ∧
    Option.map Handle.ty ((transition cfg f t (reloaded m b k) d).snd.fst).current
      = Option.map Handle.ty ((transition cfg f t m d).snd.fst).current := by
  have hnl : ¬ b.len < ptrSize := not_lt.mpr hlen
  have hrel : reloaded m b k = { current := m.current, nextAddr := k } := by
    simp [reloaded, save, load, hnull, hnl]
  rw [hrel]
  exact ⟨rfl, transition_heap_indep cfg f t m.current k m.nextAddr d⟩

/-- C5 witness: a concrete round trip through a 16-byte buffer preserves
introspection and the behaviour of the edge (0,1). -/
theorem save_load_roundtrip_witness :
    state 0 (reloaded mPre bufOk 5) = state 0 mPre ∧
    (transition cfgLazy 0 1 (reloaded mPre bufOk 5) 2).fst
      = (transition cfgLazy 0 1 mPre 2).fst ∧
    (transition cfgLazy 0 1 (reloaded mPre bufOk 5) 2).snd.snd
      = (transition cfgLazy 0 1 mPre 2).snd.snd ∧
    Option.map Handle.ty
        ((transition cfgLazy 0 1 (reloaded mPre bufOk 5) 2).snd.fst).current
      = Option.map Handle.ty
        ((transition cfgLazy 0 1 mPre 2).snd.fst).current :=
  save_load_roundtrip cfgLazy mPre bufOk h0 5 0 0 1 2 rfl rfl (by decide)

/-- C6: `start<S>(data)` followed immediately by `stop(data)` produces
exactly the callbacks `on_enter(S)` then `on_exit(S)`, in that order, both
with the same data handle, and no other callback. (Hypothesis: the
allocator yields an object of class S, as LAZY does unconditionally.) -/
theorem start_stop_hook_pair
    (cfg : Config) (s : Nat) (m : Machine) (d : Nat) (h : Handle)
    (halloc : (allocate_state cfg m s).fst = some h) (hty : h.ty = s) :
    hooks ((start cfg s m d).snd.snd
        ++ (stop cfg (start cfg s m d).snd.fst d).snd)
      = [Event.enter s d, Event.exit s d] := by
  cases htype : cfg.type <;>
    simp [start, halloc, stop, delete_current_state, htype, hooks, isHook, hty]

/-- C6 witness: starting a LAZY machine in state 0 and stopping it yields
the callback pair enter 0, exit 0, with data handle 6. -/
theorem start_stop_hook_pair_witness :
    hooks ((start cfgLazy 0 mNone 6).snd.snd
        ++ (stop cfgLazy (start cfgLazy 0 mNone 6).snd.fst 6).snd)
      = [Event.enter 0 6, Event.exit 0 6] :=
  start_stop_hook_pair cfgLazy 0 mNone 6 { ty := 0, addr := 0 } rfl rfl

/-- C7: `stop` on a machine with no current state (never started, or
already stopped) is a no-op — no hook runs, no object is released, the
machine is unchanged — and consequently a second consecutive `stop` never
double-invokes `on_exit` and never double-releases a lazily owned
object. -/
theorem stop_idempotent :
    (∀ cfg m d, Machine.current m = none → stop cfg m d = (m, [])) ∧
    (∀ cfg m d d2, stop cfg (stop cfg m d).fst d2 = ((stop cfg m d).fst, [])) := by
  have hnone : ∀ cfg m d, Machine.current m = none → stop cfg m d = (m, []) := by
    intro cfg m d h
    simp [stop, h]
  refine ⟨hnone, ?_⟩
  intro cfg m d d2
  have h : (stop cfg m d).fst.current = none := by
    rcases hm : m.current with _ | c
    · simp [stop, hm]
    · simp [stop, hm, delete_current_state]
  exact hnone cfg _ d2 h

/-- C7 witness: stopping a never-started machine is a no-op, and a second
stop after stopping a started machine is a no-op. -/
theorem stop_idempotent_witness :
    stop cfgLazy mNone 3 = (mNone, []) ∧
    stop cfgLazy (stop cfgLazy mPre 3).fst 4 = ((stop cfgLazy mPre 3).fst, []) :=
  ⟨stop_idempotent.1 cfgLazy mNone 3 rfl, stop_idempotent.2 cfgLazy mPre 3 4⟩

/-- C8: on a null buffer pointer or a buffer narrower than one pointer,
`save` returns 0 with machine and buffer untouched and `load` returns 0
with the machine untouched; both are plain returns, nothing is thrown. -/
theorem save_load_undersized_noop (m : Machine) (b : Buffer)
    (h : b.null = true ∨ b.len < ptrSize) :
    save m b = (0, m, b, []) ∧ load m b = (0, m, []) := by
  rcases h with h | h
  · simp [save, load, h]
  · cases hb : b.null
    · simp [save, load, hb, h]
    · simp [save, load, hb]

/-- C8 witness: a 4-byte buffer is narrower than one pointer, so `save` and
`load` on it return 0 and change nothing. -/
theorem save_load_undersized_noop_witness :
    save mPre bufSmall = (0, mPre, bufSmall, []) ∧
    load mPre bufSmall = (0, mPre, []) :=
  save_load_undersized_noop mPre bufSmall (Or.inr (by decide))

/-- C9: after a `save` that returns a nonzero byte count the machine's own
reference to the current object is cleared — introspection reports no
current state and destruction releases nothing — and a `load` from an
adequate buffer installs the stored pointer as current state while
producing no callback. -/
theorem save_clears_current_load_no_hooks
    (cfg : Config) (m ml : Machine) (b bl : Buffer) (tq : Nat)
    (hn : (save m b).fst ≠ 0)
    (hnull : bl.null = false) (hlen : ptrSize ≤ bl.len) :
    ((save m b).snd.fst).current = none ∧
    state tq (save m b).snd.fst = none ∧
    destruct cfg (save m b).snd.fst = [] ∧
    load ml bl = (ptrSize, { ml with current := bl.stored }, []) := by
  have hbn : b.null = false := by
    cases hb : b.null
    · rfl
    · simp [save, hb] at hn
  have hbl : ¬ b.len < ptrSize := by
    intro hlt
    simp [save, hbn, hlt] at hn
  have hm : (save m b).snd.fst = { m with current := none } := by
    simp [save, hbn, hbl]
  refine ⟨by simp [hm], by simp [hm, state, dynCast], by simp [hm, destruct], ?_⟩
  simp [load, hnull, not_lt.mpr hlen]

/-- C9 witness: a concrete successful save empties the machine, after which
introspection and destruction observe nothing, and a concrete load installs
the buffer's stored pointer with no callback. -/
theorem save_clears_current_load_no_hooks_witness :
    ((save mPre bufOk).snd.fst).current = none ∧
    state 0 (save mPre bufOk).snd.fst = none ∧
    destruct cfgLazy (save mPre bufOk).snd.fst = [] ∧
    load mPre bufOk = (ptrSize, { mPre with current := bufOk.stored }, []) :=
  save_clears_current_load_no_hooks cfgLazy mPre mPre bufOk bufOk 0
    (by decide) rfl (by decide)

end cfsm
